import Mathlib

/-!
Shallow embedding of the tls-friend crate (src/tls_setup.rs, src/async_io.rs,
src/client_connector.rs, src/lib.rs) in Lean 4.

External collaborators are abstracted at their call boundary:
* the PEM decoder (rustls_pemfile): a byte buffer is represented together with
  the sequence of results the decoder yields for it — each element is either a
  decoded PEM item or a framing error (read_one / the read_all iterator
  returning Err);
* RootCertStore.add (rustls): a boolean predicate addOk on DER bytes saying
  whether rustls accepts the certificate (failed adds are logged and skipped
  in the source);
* DnsName.try_from (rustls pki_types): a boolean predicate validDns on strings;
* the TLS handshake (tokio_rustls connect/accept): a function parameter
  producing a PResult;
* tokio::io::split / unsplit / is_pair_of: each split allocates a fresh shared
  inner cell; is_pair_of is pointer equality of that cell, modelled by a fresh
  numeric pair identifier handed to into_split.

Rust control flow is made explicit: a returned io::Error is an err result
(with its ErrorKind and message), an error propagated from the PEM decoder by
the question-mark operator is pemError, and a process panic (the expect call
in parse_certificates) is a panic result. Logging (tracing) is ignored, as is
the log-only invalid variable in both parse functions.
-/

namespace TlsFriend

/-- A PEM item as classified by rustls_pemfile (Item enum). DER payloads are
abstract byte lists. otherItem covers every non-certificate, non-key item
(CRL, CSR, ...). -/
inductive PemItem : Type
  | x509Certificate (der : List Nat)
  | pkcs1Key (der : List Nat)
  | pkcs8Key (der : List Nat)
  | sec1Key (der : List Nat)
  | otherItem (tag : Nat)
deriving DecidableEq, Repr

/-- One step of the PEM decoder on a buffer: either a decoded item, or a
framing error (rustls_pemfile read_one returning Err / the read_all iterator
yielding Err). The decoded stream of a buffer is a list of these, ending when
read_one returns Ok(None). -/
inductive PemEntry : Type
  | item (i : PemItem)
  | malformed
deriving DecidableEq, Repr

/-- rustls PrivateKeyDer: the three supported encodings. -/
inductive PrivateKeyDer : Type
  | pkcs1 (der : List Nat)
  | pkcs8 (der : List Nat)
  | sec1 (der : List Nat)
deriving DecidableEq, Repr

/-- std::io::ErrorKind values used by the sources. -/
inductive ErrorKind : Type
  | invalidData
  | invalidInput
deriving DecidableEq, Repr

/-- Result of running a fallible piece of the Rust code: normal return,
an io::Error constructed by this crate (kind and message), an error
propagated verbatim from the PEM decoder (the question-mark operator in
parse_key), or a process panic (the expect call in parse_certificates). -/
inductive PResult (α : Type) : Type
  | ok (v : α)
  | err (kind : ErrorKind) (msg : String)
  | pemError
  | panic (msg : String)
deriving DecidableEq, Repr

/-- Sequencing of fallible Rust code: the question-mark operator / early
return. Errors and panics propagate. -/
def PResult.bind {α β : Type} : PResult α → (α → PResult β) → PResult β
  | .ok v, f => f v
  | .err k m, _ => .err k m
  | .pemError, _ => .pemError
  | .panic m, _ => .panic m

/-- Functorial map over the ok value. -/
def PResult.map {α β : Type} (f : α → β) : PResult α → PResult β
  | .ok v => .ok (f v)
  | .err k m => .err k m
  | .pemError => .pemError
  | .panic m => .panic m

/-- True exactly when the computation panicked. -/
def PResult.isPanicR {α : Type} : PResult α → Bool
  | .panic _ => true
  | _ => false

/-- True exactly when an error value was returned to the caller (either an
io::Error built by this crate or one propagated from the PEM decoder). -/
def PResult.isErrR {α : Type} : PResult α → Bool
  | .err _ _ => true
  | .pemError => true
  | _ => false

/-- True exactly when an io::Error with kind InvalidData was returned. -/
def PResult.isInvalidData {α : Type} : PResult α → Bool
  | .err .invalidData _ => true
  | _ => false

/-- The loop of parse_certificates (src/tls_setup.rs): read PEM entries in
order, keep X.509 certificate payloads, skip other items (recording them only
for logging, which is dropped here), and panic — the expect call — on a
framing error. -/
def scanCerts : List PemEntry → PResult (List (List Nat))
  | [] => .ok []
  | .malformed :: _ => .panic "failed to parse certificate"
  | .item (.x509Certificate c) :: rest => (scanCerts rest).map (fun cs => c :: cs)
  | .item _ :: rest => scanCerts rest

/-- parse_certificates (src/tls_setup.rs): run the scan loop, then fail with
an InvalidData error when no certificate was collected. -/
def parse_certificates (entries : List PemEntry) : PResult (List (List Nat)) :=
  match scanCerts entries with
  | .ok cs =>
      if cs.isEmpty then .err .invalidData "no certifiates in file"
      else .ok cs
  | .err k m => .err k m
  | .pemError => .pemError
  | .panic m => .panic m

/-- parse_key (src/tls_setup.rs): walk the read_all iterator lazily; the
question-mark operator returns a decoder error to the caller; the first
PKCS#1 / PKCS#8 / SEC1 item is returned; other items are skipped (logged
only); an exhausted buffer yields the InvalidData no-key error. -/
def parse_key : List PemEntry → PResult PrivateKeyDer
  | [] => .err .invalidData "could not find valid private key"
  | .malformed :: _ => .pemError
  | .item (.pkcs1Key k) :: _ => .ok (.pkcs1 k)
  | .item (.pkcs8Key k) :: _ => .ok (.pkcs8 k)
  | .item (.sec1Key k) :: _ => .ok (.sec1 k)
  | .item (.x509Certificate _) :: rest => parse_key rest
  | .item (.otherItem _) :: rest => parse_key rest

/-- A raw byte buffer together with the entry sequence the PEM decoder yields
for it. bytes is kept because build_mutual tests cert_data.is_empty() on the
raw bytes, not on the decoded entries. -/
structure Buffer : Type where
  bytes : List Nat
  entries : List PemEntry
deriving DecidableEq, Repr

/-- Certificate (src/tls_setup.rs): a chain of DER certificates plus one
private key. -/
structure Certificate : Type where
  cert_chain : List (List Nat)
  private_key : PrivateKeyDer
deriving DecidableEq, Repr

/-- MutualTls (src/tls_setup.rs): trust is the root certificate store contents
(the DER certificates actually accepted by RootCertStore.add, in order). -/
structure MutualTls : Type where
  trust : List (List Nat)
  cert : Certificate
deriving DecidableEq, Repr

/-- ClientVerifyServerTls (src/tls_setup.rs). -/
structure ClientVerifyServerTls : Type where
  trust : List (List Nat)
deriving DecidableEq, Repr

/-- The root-store contents a trust buffer produces: the certificates
parse_certificates collects, filtered by which ones RootCertStore.add accepts;
empty when parsing does not return normally. -/
def trustStoreOf (addOk : List Nat → Bool) (entries : List PemEntry) : List (List Nat) :=
  match parse_certificates entries with
  | .ok cs => cs.filter addOk
  | _ => []

/-- TlsSetup::build_mutual (src/tls_setup.rs): parse the trust anchors, add
each to the root store (add failures are logged and skipped — addOk), fail
with InvalidData when the store is empty, then parse the certificate chain
from cert_data unless its raw bytes are empty, in which case from key_data,
and finally parse the private key from key_data. -/
def TlsSetup.build_mutual (addOk : List Nat → Bool)
    (trust_ca_pem key_data cert_data : Buffer) : PResult MutualTls :=
  (parse_certificates trust_ca_pem.entries).bind fun trustCerts =>
    let root_cert_store := trustCerts.filter addOk
    if root_cert_store.isEmpty then
      .err .invalidData "no CA certificate found"
    else
      (parse_certificates
          (if cert_data.bytes.isEmpty then key_data.entries else cert_data.entries)).bind
        fun cert_chain =>
          (parse_key key_data.entries).bind fun private_key =>
            .ok { trust := root_cert_store
                  cert := { cert_chain := cert_chain, private_key := private_key } }

/-- TlsSetup::build_client (src/tls_setup.rs): parse the trust anchors, add
them to the root store, and fail with InvalidData when the store is empty. -/
def TlsSetup.build_client (addOk : List Nat → Bool)
    (trust_ca_pem : Buffer) : PResult ClientVerifyServerTls :=
  (parse_certificates trust_ca_pem.entries).bind fun trustCerts =>
    let root_cert_store := trustCerts.filter addOk
    if root_cert_store.isEmpty then
      .err .invalidData "no CA certificate found"
    else
      .ok { trust := root_cert_store }

/-! Embedding of src/async_io.rs. -/

/-- tokio ReadHalf: holds a shared reference to the inner stream; pairId
models the address of the Arc cell allocated by tokio::io::split, so two
halves compare as a pair exactly when they carry the same identifier. -/
structure ReadHalf (α : Type) : Type where
  pairId : Nat
  inner : α
deriving DecidableEq, Repr

/-- tokio WriteHalf, sharing the same inner cell as its matching ReadHalf. -/
structure WriteHalf (α : Type) : Type where
  pairId : Nat
  inner : α
deriving DecidableEq, Repr

/-- AsyncIO::into_split (src/async_io.rs) = tokio::io::split: allocates a
fresh shared cell (freshId, distinct for every split operation) holding the
stream, and hands out the two halves referring to it. -/
def into_split {α : Type} (freshId : Nat) (s : α) : ReadHalf α × WriteHalf α :=
  ({ pairId := freshId, inner := s }, { pairId := freshId, inner := s })

/-- ReadHalf::is_pair_of: pointer equality of the shared cells. -/
def is_pair_of {α : Type} (r : ReadHalf α) (w : WriteHalf α) : Bool :=
  r.pairId == w.pairId

/-- ReadHalf::unsplit on a matching pair: recovers the inner stream from the
shared cell. -/
def unsplit {α : Type} (r : ReadHalf α) (_w : WriteHalf α) : α :=
  r.inner

/-- AsyncIO::try_join (src/async_io.rs): fails, handing both halves back,
unless the halves are a pair; on a pair, unsplits. -/
def try_join {α : Type} (r : ReadHalf α) (w : WriteHalf α) :
    Except (ReadHalf α × WriteHalf α) α :=
  if !(is_pair_of r w) then .error (r, w) else .ok (unsplit r w)

/-! Embedding of src/client_connector.rs. -/

/-- ClientConnector (src/client_connector.rs): optionally a validated server
name paired with a TLS connector handle (abstract type κ); None is plaintext
mode. -/
structure ClientConnector (κ : Type) : Type where
  tls_connector : Option (String × κ)
deriving DecidableEq, Repr

/-- ClientConnector::tls: validates the server name via DnsName::try_from
(abstracted by validDns) and fails with InvalidInput on a malformed name. -/
def ClientConnector.tls {κ : Type} (validDns : String → Bool)
    (name : String) (connector : κ) : PResult (ClientConnector κ) :=
  if validDns name then .ok { tls_connector := some (name, connector) }
  else .err .invalidInput "invalid dnsname"

/-- ClientConnector::plain. -/
def ClientConnector.plain {κ : Type} : ClientConnector κ :=
  { tls_connector := none }

/-- ClientStream (src/tls_streams.rs): raw stream (α) or TLS-wrapped client
stream (β). -/
inductive ClientStream (α β : Type) : Type
  | tcpStream (s : α)
  | tlsStream (s : β)
deriving DecidableEq, Repr

/-- ClientConnector::connect: in TLS mode runs the handshake (abstracted by
the handshake parameter) with the stored name and connector and wraps the
result; in plaintext mode returns the raw stream unchanged. -/
def ClientConnector.connect {κ α β : Type}
    (handshake : String → κ → α → PResult β)
    (c : ClientConnector κ) (s : α) : PResult (ClientStream α β) :=
  match c.tls_connector with
  | some (name, connector) => (handshake name connector s).map ClientStream.tlsStream
  | none => .ok (.tcpStream s)

/-- ClientAcceptor (src/client_connector.rs): optionally a TLS acceptor
handle; None is plaintext mode. -/
structure ClientAcceptor (κ : Type) : Type where
  tls_acceptor : Option κ
deriving DecidableEq, Repr

/-- ClientAcceptor::tls. -/
def ClientAcceptor.tls {κ : Type} (acceptor : κ) : ClientAcceptor κ :=
  { tls_acceptor := some acceptor }

/-- ClientAcceptor::plain. -/
def ClientAcceptor.plain {κ : Type} : ClientAcceptor κ :=
  { tls_acceptor := none }

/-- ServerStream (src/tls_streams.rs): raw stream or TLS-wrapped server
stream. -/
inductive ServerStream (α β : Type) : Type
  | tcpStream (s : α)
  | tlsStream (s : β)
deriving DecidableEq, Repr

/-- ClientAcceptor::accept: in TLS mode runs the server-side handshake and
wraps the result; in plaintext mode returns the raw stream unchanged. -/
def ClientAcceptor.accept {κ α β : Type}
    (handshake : κ → α → PResult β)
    (a : ClientAcceptor κ) (s : α) : PResult (ServerStream α β) :=
  match a.tls_acceptor with
  | some acceptor => (handshake acceptor s).map ServerStream.tlsStream
  | none => .ok (.tcpStream s)

/-! Embedding of src/lib.rs. -/

/-- Process state touched by install_crypto: the CRYPTO_SETUP atomic flag,
whether the provider install_default call has succeeded, and how many times
install_default was attempted. -/
structure CryptoState : Type where
  crypto_setup : Bool
  provider_installed : Bool
  install_attempts : Nat
deriving DecidableEq, Repr

/-- Process start: flag clear, no provider installed, no attempts. -/
def initialCryptoState : CryptoState :=
  { crypto_setup := false, provider_installed := false, install_attempts := 0 }

/-- install_crypto (src/lib.rs): compare-exchange the flag from false to true;
a loser of the exchange just logs and returns; the winner attempts the
provider installation exactly once, logging — not reporting — a failure
(installSucceeds abstracts the install_default outcome). The Rust function
returns unit in every case, so the model has no error channel. -/
def install_crypto (installSucceeds : Bool) (s : CryptoState) : CryptoState :=
  if s.crypto_setup then s
  else
    { crypto_setup := true
      provider_installed := installSucceeds
      install_attempts := s.install_attempts + 1 }

/-! Derived notions used to state the claims. -/

/-- The private key a single PEM item decodes to, when it is one of the three
supported encodings. -/
def itemKeyDer : PemItem → Option PrivateKeyDer
  | .pkcs1Key d => some (.pkcs1 d)
  | .pkcs8Key d => some (.pkcs8 d)
  | .sec1Key d => some (.sec1 d)
  | .x509Certificate _ => none
  | .otherItem _ => none

/-- The private key a PEM entry decodes to, when any. -/
def PemEntry.keyDer : PemEntry → Option PrivateKeyDer
  | .item i => itemKeyDer i
  | .malformed => none

/-- The X.509 certificate payloads of an entry list, in order. -/
def certItems : List PemEntry → List (List Nat)
  | [] => []
  | .item (.x509Certificate c) :: rest => c :: certItems rest
  | .item (.pkcs1Key _) :: rest => certItems rest
  | .item (.pkcs8Key _) :: rest => certItems rest
  | .item (.sec1Key _) :: rest => certItems rest
  | .item (.otherItem _) :: rest => certItems rest
  | .malformed :: rest => certItems rest

/-! Lemmas about the parsing functions. -/

theorem scanCerts_eq_ok (entries : List PemEntry) (h : PemEntry.malformed ∉ entries) :
    scanCerts entries = .ok (certItems entries) := by
  induction entries with
  | nil => rfl
  | cons e rest ih =>
    simp only [List.mem_cons, not_or] at h
    obtain ⟨h1, h2⟩ := h
    cases e with
    | malformed => exact absurd rfl h1
    | item i =>
      cases i with
      | x509Certificate c => simp [scanCerts, certItems, ih h2, PResult.map]
      | pkcs1Key d => simpa [scanCerts, certItems] using ih h2
      | pkcs8Key d => simpa [scanCerts, certItems] using ih h2
      | sec1Key d => simpa [scanCerts, certItems] using ih h2
      | otherItem t => simpa [scanCerts, certItems] using ih h2

theorem scanCerts_panic_of_malformed (entries : List PemEntry)
    (h : PemEntry.malformed ∈ entries) :
    scanCerts entries = .panic "failed to parse certificate" := by
  induction entries with
  | nil => cases h
  | cons e rest ih =>
    rcases List.mem_cons.mp h with he | hrest
    · rw [← he]; rfl
    · cases e with
      | malformed => rfl
      | item i =>
        cases i with
        | x509Certificate c => simp [scanCerts, ih hrest, PResult.map]
        | pkcs1Key d => simpa [scanCerts] using ih hrest
        | pkcs8Key d => simpa [scanCerts] using ih hrest
        | sec1Key d => simpa [scanCerts] using ih hrest
        | otherItem t => simpa [scanCerts] using ih hrest

theorem parse_certificates_of_wellformed (entries : List PemEntry)
    (h : PemEntry.malformed ∉ entries) :
    parse_certificates entries =
      if (certItems entries).isEmpty then .err .invalidData "no certifiates in file"
      else .ok (certItems entries) := by
  rw [parse_certificates, scanCerts_eq_ok entries h]

theorem parse_certificates_panic_of_malformed (entries : List PemEntry)
    (h : PemEntry.malformed ∈ entries) :
    parse_certificates entries = .panic "failed to parse certificate" := by
  rw [parse_certificates, scanCerts_panic_of_malformed entries h]

theorem parse_key_append (pre tail : List PemEntry)
    (h : ∀ e ∈ pre, e.keyDer = none ∧ e ≠ PemEntry.malformed) :
    parse_key (pre ++ tail) = parse_key tail := by
  induction pre with
  | nil => rfl
  | cons e rest ih =>
    have he := h e (List.mem_cons_self e rest)
    have hrest : ∀ x ∈ rest, x.keyDer = none ∧ x ≠ PemEntry.malformed :=
      fun x hx => h x (List.mem_cons_of_mem e hx)
    cases e with
    | malformed => exact absurd rfl he.2
    | item i =>
      cases i with
      | x509Certificate c => simpa [parse_key] using ih hrest
      | otherItem t => simpa [parse_key] using ih hrest
      | pkcs1Key d => simp [PemEntry.keyDer, itemKeyDer] at he
      | pkcs8Key d => simp [PemEntry.keyDer, itemKeyDer] at he
      | sec1Key d => simp [PemEntry.keyDer, itemKeyDer] at he

theorem parse_key_no_panic (entries : List PemEntry) :
    (parse_key entries).isPanicR = false := by
  induction entries with
  | nil => rfl
  | cons e rest ih =>
    cases e with
    | malformed => rfl
    | item i =>
      cases i with
      | x509Certificate c => simpa [parse_key] using ih
      | otherItem t => simpa [parse_key] using ih
      | pkcs1Key d => rfl
      | pkcs8Key d => rfl
      | sec1Key d => rfl

theorem build_mutual_ok_elim (addOk : List Nat → Bool) (t k c : Buffer)
    (m : MutualTls) (hok : TlsSetup.build_mutual addOk t k c = .ok m) :
    (∃ cs, parse_certificates t.entries = .ok cs ∧
        cs.filter addOk = m.trust ∧ (cs.filter addOk).isEmpty = false) ∧
    parse_certificates (if c.bytes.isEmpty then k.entries else c.entries)
        = .ok m.cert.cert_chain ∧
    parse_key k.entries = .ok m.cert.private_key := by
  unfold TlsSetup.build_mutual at hok
  cases htrust : parse_certificates t.entries with
  | ok trustCerts =>
    rw [htrust] at hok
    simp only [PResult.bind] at hok
    by_cases hempty : (trustCerts.filter addOk).isEmpty = true
    · rw [if_pos hempty] at hok
      exact PResult.noConfusion hok
    · rw [if_neg hempty] at hok
      cases hchain : parse_certificates
          (if c.bytes.isEmpty then k.entries else c.entries) with
      | ok chain =>
        rw [hchain] at hok
        simp only [PResult.bind] at hok
        cases hkey : parse_key k.entries with
        | ok pk =>
          rw [hkey] at hok
          simp only [PResult.bind] at hok
          injection hok with h
          subst h
          exact ⟨⟨trustCerts, rfl, rfl, Bool.not_eq_true _ ▸ hempty⟩, rfl, rfl⟩
        | err k2 m2 =>
          rw [hkey] at hok
          simp only [PResult.bind] at hok
          exact PResult.noConfusion hok
        | pemError =>
          rw [hkey] at hok
          simp only [PResult.bind] at hok
          exact PResult.noConfusion hok
        | panic m2 =>
          rw [hkey] at hok
          simp only [PResult.bind] at hok
          exact PResult.noConfusion hok
      | err k2 m2 =>
        rw [hchain] at hok
        simp only [PResult.bind] at hok
        exact PResult.noConfusion hok
      | pemError =>
        rw [hchain] at hok
        simp only [PResult.bind] at hok
        exact PResult.noConfusion hok
      | panic m2 =>
        rw [hchain] at hok
        simp only [PResult.bind] at hok
        exact PResult.noConfusion hok
  | err k2 m2 =>
    rw [htrust] at hok
    simp only [PResult.bind] at hok
    exact PResult.noConfusion hok
  | pemError =>
    rw [htrust] at hok
    simp only [PResult.bind] at hok
    exact PResult.noConfusion hok
  | panic m2 =>
    rw [htrust] at hok
    simp only [PResult.bind] at hok
    exact PResult.noConfusion hok

theorem build_client_ok_elim (addOk : List Nat → Bool) (t : Buffer)
    (v : ClientVerifyServerTls) (hok : TlsSetup.build_client addOk t = .ok v) :
    ∃ cs, parse_certificates t.entries = .ok cs ∧
        cs.filter addOk = v.trust ∧ (cs.filter addOk).isEmpty = false := by
  unfold TlsSetup.build_client at hok
  cases htrust : parse_certificates t.entries with
  | ok trustCerts =>
    rw [htrust] at hok
    simp only [PResult.bind] at hok
    by_cases hempty : (trustCerts.filter addOk).isEmpty = true
    · rw [if_pos hempty] at hok
      exact PResult.noConfusion hok
    · rw [if_neg hempty] at hok
      injection hok with h
      subst h
      exact ⟨trustCerts, rfl, rfl, Bool.not_eq_true _ ▸ hempty⟩
  | err k2 m2 =>
    rw [htrust] at hok
    simp only [PResult.bind] at hok
    exact PResult.noConfusion hok
  | pemError =>
    rw [htrust] at hok
    simp only [PResult.bind] at hok
    exact PResult.noConfusion hok
  | panic m2 =>
    rw [htrust] at hok
    simp only [PResult.bind] at hok
    exact PResult.noConfusion hok

/-! Sample inputs used by the witness theorems. -/

/-- A RootCertStore.add that accepts every certificate. -/
def sampleAdd : List Nat → Bool := fun _ => true

/-- A trust buffer holding one certificate. -/
def sampleTrustBuf : Buffer := Buffer.mk [1] [PemEntry.item (.x509Certificate [7])]

/-- A combined key buffer holding a PKCS#8 key followed by a certificate. -/
def sampleKeyBuf : Buffer :=
  Buffer.mk [2] [PemEntry.item (.pkcs8Key [20]), PemEntry.item (.x509Certificate [30])]

/-- An empty byte buffer (decoding to no entries). -/
def emptyBuf : Buffer := Buffer.mk [] []

/-- The configuration build_mutual produces from the sample buffers. -/
def sampleMutual : MutualTls :=
  MutualTls.mk [[7]] (Certificate.mk [[30]] (PrivateKeyDer.pkcs8 [20]))

/-! Claims about the configuration builders (src/tls_setup.rs). -/

/-- C1 (amended): for every trust-anchor input whose PEM framing is
well-formed and from which zero certificates end up in the root store,
build_mutual and build_client return an InvalidData error (on malformed
framing they instead panic inside certificate parsing); and — for all inputs
whatsoever — neither builder ever returns a successfully built configuration
whose trust store is empty. -/
theorem claim_C1 (addOk : List Nat → Bool) (t k c : Buffer) :
    (PemEntry.malformed ∉ t.entries → trustStoreOf addOk t.entries = [] →
      (TlsSetup.build_mutual addOk t k c).isInvalidData = true ∧
      (TlsSetup.build_client addOk t).isInvalidData = true) ∧
    (∀ m, TlsSetup.build_mutual addOk t k c = .ok m → m.trust ≠ []) ∧
    (∀ v, TlsSetup.build_client addOk t = .ok v → v.trust ≠ []) := by
  refine ⟨?_, ?_, ?_⟩
  · intro hwf hstore
    have hpc := parse_certificates_of_wellformed t.entries hwf
    by_cases hempty : (certItems t.entries).isEmpty = true
    · rw [if_pos hempty] at hpc
      unfold TlsSetup.build_mutual TlsSetup.build_client
      rw [hpc]
      exact ⟨rfl, rfl⟩
    · rw [if_neg hempty] at hpc
      have hfil : (certItems t.entries).filter addOk = [] := by
        rw [trustStoreOf, hpc] at hstore
        exact hstore
      unfold TlsSetup.build_mutual TlsSetup.build_client
      rw [hpc]
      simp only [PResult.bind, hfil]
      exact ⟨rfl, rfl⟩
  · intro m hok
    obtain ⟨⟨cs, _, hfilter, hne⟩, _, _⟩ := build_mutual_ok_elim addOk t k c m hok
    intro hnil
    rw [hnil] at hfilter
    rw [hfilter] at hne
    exact Bool.true_eq_false ▸ hne
  · intro v hok
    obtain ⟨cs, _, hfilter, hne⟩ := build_client_ok_elim addOk t v hok
    intro hnil
    rw [hnil] at hfilter
    rw [hfilter] at hne
    exact Bool.true_eq_false ▸ hne

/-- Counterexample to C1 as stated: a trust buffer with malformed PEM framing
is an input from which zero certificates end up in the root store, yet both
builders panic (the expect call in parse_certificates) instead of returning a
validation error. -/
theorem claim_C1_counterexample :
    (TlsSetup.build_mutual sampleAdd (Buffer.mk [0] [PemEntry.malformed])
        emptyBuf emptyBuf).isPanicR = true ∧
    (TlsSetup.build_mutual sampleAdd (Buffer.mk [0] [PemEntry.malformed])
        emptyBuf emptyBuf).isErrR = false ∧
    (TlsSetup.build_client sampleAdd (Buffer.mk [0] [PemEntry.malformed])).isPanicR
        = true ∧
    (TlsSetup.build_client sampleAdd (Buffer.mk [0] [PemEntry.malformed])).isErrR
        = false := by
  decide

/-- Witness for C1: a well-formed trust buffer every certificate of which the
root store rejects makes both builders fail with InvalidData, and a
successful build has a non-empty trust store. -/
theorem claim_C1_witness :
    ((TlsSetup.build_mutual (fun _ => false) sampleTrustBuf emptyBuf
        emptyBuf).isInvalidData = true ∧
      (TlsSetup.build_client (fun _ => false) sampleTrustBuf).isInvalidData = true) ∧
    sampleMutual.trust ≠ [] ∧
    (ClientVerifyServerTls.mk [[7]]).trust ≠ [] :=
  ⟨(claim_C1 (fun _ => false) sampleTrustBuf emptyBuf emptyBuf).1
      (by decide) (by decide),
   (claim_C1 sampleAdd sampleTrustBuf sampleKeyBuf emptyBuf).2.1 sampleMutual
      (by decide),
   (claim_C1 sampleAdd sampleTrustBuf sampleKeyBuf emptyBuf).2.2
      (ClientVerifyServerTls.mk [[7]]) (by decide)⟩

/-- C2 (amended): malformed PEM framing reached by parse_key (before any
supported key block) is returned to the caller as the propagated decoder
error, which is distinct from the InvalidData no-key validation error, and
parse_key never panics; parse_certificates, by contrast, panics on malformed
framing instead of returning a parse error. -/
theorem claim_C2 (pre rest entries : List PemEntry) :
    ((∀ e ∈ pre, e.keyDer = none ∧ e ≠ PemEntry.malformed) →
      parse_key (pre ++ PemEntry.malformed :: rest) = .pemError) ∧
    (parse_key entries).isPanicR = false ∧
    (PemEntry.malformed ∈ entries →
      parse_certificates entries = .panic "failed to parse certificate") ∧
    PResult.pemError
      ≠ (.err .invalidData "could not find valid private key" : PResult PrivateKeyDer) := by
  refine ⟨?_, parse_key_no_panic entries,
    parse_certificates_panic_of_malformed entries, by decide⟩
  intro hpre
  rw [parse_key_append pre _ hpre]
  rfl

/-- Counterexample to C2 as stated: on a buffer whose PEM framing is
malformed, certificate parsing panics; no parse error is returned to the
caller. -/
theorem claim_C2_counterexample :
    (parse_certificates [PemEntry.malformed]).isPanicR = true ∧
    (parse_certificates [PemEntry.malformed]).isErrR = false := by
  decide

/-- Witness for C2 at concrete entry lists. -/
theorem claim_C2_witness :
    parse_key [PemEntry.item (.x509Certificate [1]), PemEntry.malformed]
        = .pemError ∧
    (parse_key [PemEntry.item (.pkcs1Key [3])]).isPanicR = false ∧
    parse_certificates [PemEntry.item (.x509Certificate [1]), PemEntry.malformed]
        = .panic "failed to parse certificate" ∧
    PResult.pemError
      ≠ (.err .invalidData "could not find valid private key" : PResult PrivateKeyDer) :=
  ⟨(claim_C2 [PemEntry.item (.x509Certificate [1])] [] []).1 (by decide),
   (claim_C2 [] [] [PemEntry.item (.pkcs1Key [3])]).2.1,
   (claim_C2 [] [] [PemEntry.item (.x509Certificate [1]), PemEntry.malformed]).2.2.1
      (by decide),
   (claim_C2 [] [] []).2.2.2⟩

/-- C3: parse_key returns the first PEM block recognized as one of the three
supported private-key encodings, skipping any other well-formed block before
it; and on a buffer whose blocks contain no supported key encoding, it fails
with the no-valid-private-key InvalidData error however many non-key blocks
the buffer contains. -/
theorem claim_C3 (pre rest entries : List PemEntry) (i : PemItem)
    (k : PrivateKeyDer) :
    ((∀ e ∈ pre, e.keyDer = none ∧ e ≠ PemEntry.malformed) →
      itemKeyDer i = some k →
      parse_key (pre ++ PemEntry.item i :: rest) = .ok k) ∧
    ((∀ e ∈ entries, e.keyDer = none ∧ e ≠ PemEntry.malformed) →
      parse_key entries = .err .invalidData "could not find valid private key") := by
  constructor
  · intro hpre hk
    rw [parse_key_append pre _ hpre]
    cases i with
    | pkcs1Key d =>
      simp only [itemKeyDer, Option.some.injEq] at hk
      rw [← hk]
      rfl
    | pkcs8Key d =>
      simp only [itemKeyDer, Option.some.injEq] at hk
      rw [← hk]
      rfl
    | sec1Key d =>
      simp only [itemKeyDer, Option.some.injEq] at hk
      rw [← hk]
      rfl
    | x509Certificate d => simp [itemKeyDer] at hk
    | otherItem t => simp [itemKeyDer] at hk
  · intro hent
    have h := parse_key_append entries [] hent
    rw [List.append_nil] at h
    exact h

/-- Witness for C3: a PKCS#8 key behind a certificate and an unrecognized
block is found; a buffer of only non-key blocks yields the no-key error. -/
theorem claim_C3_witness :
    parse_key [PemEntry.item (.otherItem 0), PemEntry.item (.x509Certificate [1]),
        PemEntry.item (.pkcs8Key [5]), PemEntry.item (.pkcs1Key [9])]
      = .ok (.pkcs8 [5]) ∧
    parse_key [PemEntry.item (.x509Certificate [1]), PemEntry.item (.otherItem 2)]
      = .err .invalidData "could not find valid private key" :=
  ⟨(claim_C3 [PemEntry.item (.otherItem 0), PemEntry.item (.x509Certificate [1])]
      [PemEntry.item (.pkcs1Key [9])] [] (.pkcs8Key [5]) (.pkcs8 [5])).1
      (by decide) (by decide),
   (claim_C3 [] [] [PemEntry.item (.x509Certificate [1]), PemEntry.item (.otherItem 2)]
      (.otherItem 0) (.pkcs8 [5])).2 (by decide)⟩

/-- C7: whenever build_mutual succeeds, the certificate chain was parsed from
key_data when cert_data has empty raw bytes and from cert_data otherwise, and
the private key was parsed from key_data. -/
theorem claim_C7 (addOk : List Nat → Bool) (t k c : Buffer) (m : MutualTls)
    (hok : TlsSetup.build_mutual addOk t k c = .ok m) :
    parse_certificates (if c.bytes.isEmpty then k.entries else c.entries)
        = .ok m.cert.cert_chain ∧
    parse_key k.entries = .ok m.cert.private_key :=
  ⟨(build_mutual_ok_elim addOk t k c m hok).2.1,
   (build_mutual_ok_elim addOk t k c m hok).2.2⟩

/-- Witness for C7: the sample combined key buffer supplies both the chain
and the key when cert bytes are empty. -/
theorem claim_C7_witness :
    parse_certificates
        (if emptyBuf.bytes.isEmpty then sampleKeyBuf.entries else emptyBuf.entries)
      = .ok sampleMutual.cert.cert_chain ∧
    parse_key sampleKeyBuf.entries = .ok sampleMutual.cert.private_key :=
  claim_C7 sampleAdd sampleTrustBuf sampleKeyBuf emptyBuf sampleMutual (by decide)

/-! Claims about split / rejoin (src/async_io.rs). -/

/-- C4: a read-half and a write-half from two different split operations (so
with distinct shared cells, hence distinct pair identifiers) make try_join
fail and return exactly the two halves that were passed in, unchanged; a pair
from the same split makes try_join succeed. -/
theorem claim_C4 (α : Type) (r : ReadHalf α) (w : WriteHalf α) (n : Nat) (s : α) :
    (r.pairId ≠ w.pairId → try_join r w = .error (r, w)) ∧
    try_join (into_split n s).1 (into_split n s).2 = .ok s := by
  constructor
  · intro hne
    simp [try_join, is_pair_of, hne]
  · simp [try_join, is_pair_of, into_split, unsplit]

/-- Witness for C4 at concrete halves with distinct pair identifiers. -/
theorem claim_C4_witness :
    try_join (ReadHalf.mk 0 (5 : Nat)) (WriteHalf.mk 1 6)
        = .error (ReadHalf.mk 0 5, WriteHalf.mk 1 6) ∧
    try_join (into_split 2 (7 : Nat)).1 (into_split 2 (7 : Nat)).2 = .ok 7 :=
  ⟨(claim_C4 Nat (ReadHalf.mk 0 5) (WriteHalf.mk 1 6) 2 7).1 (by decide),
   (claim_C4 Nat (ReadHalf.mk 0 5) (WriteHalf.mk 1 6) 2 7).2⟩

/-- C5: splitting any duplex stream value and rejoining the same two halves
always succeeds and yields the original stream value back (hence the same
subsequent read and write behaviour). -/
theorem claim_C5 (α : Type) (n : Nat) (s : α) :
    try_join (into_split n s).1 (into_split n s).2 = Except.ok s := by
  simp [try_join, is_pair_of, into_split, unsplit]

/-! Claims about the connector and acceptor (src/client_connector.rs). -/

/-- C6: ClientConnector::tls fails with an InvalidInput error at construction
time whenever the server name is not a well-formed DNS name; a successfully
constructed connector stores a name found well-formed, and its connect is
exactly the handshake applied to the stored name, connector and stream — it
performs no name validation of its own, so no connection attempt fails due to
a malformed server name. -/
theorem claim_C6 (κ α β : Type) (validDns : String → Bool)
    (name : String) (connector : κ) :
    (validDns name = false →
      ClientConnector.tls validDns name connector
        = .err .invalidInput "invalid dnsname") ∧
    (∀ c : ClientConnector κ,
      ClientConnector.tls validDns name connector = .ok c →
        validDns name = true ∧
        ∀ (handshake : String → κ → α → PResult β) (s : α),
          ClientConnector.connect handshake c s
            = (handshake name connector s).map ClientStream.tlsStream) := by
  constructor
  · intro hbad
    simp [ClientConnector.tls, hbad]
  · intro c hok
    by_cases hv : validDns name = true
    · refine ⟨hv, ?_⟩
      rw [ClientConnector.tls, if_pos hv] at hok
      intro handshake s
      cases hok
      rfl
    · rw [ClientConnector.tls, if_neg hv] at hok
      cases hok

/-- Witness for C6: a concrete validator, a rejected name and an accepted
name with the handshake equation instantiated. -/
theorem claim_C6_witness :
    (ClientConnector.tls (fun n => n == "localhost") "bad name" (0 : Nat)
        = .err .invalidInput "invalid dnsname") ∧
    ((fun n => n == "localhost") "localhost" = true ∧
      ∀ (handshake : String → Nat → Nat → PResult Nat) (s : Nat),
        ClientConnector.connect handshake
            (ClientConnector.mk (some ("localhost", 0))) s
          = (handshake "localhost" 0 s).map ClientStream.tlsStream) :=
  ⟨(claim_C6 Nat Nat Nat (fun n => n == "localhost") "bad name" 0).1 (by decide),
   (claim_C6 Nat Nat Nat (fun n => n == "localhost") "localhost" 0).2
     (ClientConnector.mk (some ("localhost", 0))) (by decide)⟩

/-- C8: with a plaintext-configured connector or acceptor, connect and accept
always succeed, never invoke the handshake, and return the raw stream
unchanged in the raw-stream variant of the unified stream type. -/
theorem claim_C8 (κ α β : Type)
    (handshakeC : String → κ → α → PResult β) (handshakeA : κ → α → PResult β)
    (s1 s2 : α) :
    ClientConnector.connect handshakeC (ClientConnector.plain : ClientConnector κ) s1
        = .ok (.tcpStream s1) ∧
    ClientAcceptor.accept handshakeA (ClientAcceptor.plain : ClientAcceptor κ) s2
        = .ok (.tcpStream s2) :=
  ⟨rfl, rfl⟩

/-! Claims about install_crypto (src/lib.rs). -/

/-- C9: calling install_crypto twice from process start performs exactly one
installation attempt; the second call sees the guard already set, changes
nothing, and returns normally (the function has no error channel). -/
theorem claim_C9 (r1 r2 : Bool) :
    (install_crypto r1 initialCryptoState).install_attempts = 1 ∧
    install_crypto r2 (install_crypto r1 initialCryptoState)
      = install_crypto r1 initialCryptoState :=
  ⟨rfl, rfl⟩

/-- C10: install_crypto returns unit and never reports failure: when the
provider installation fails on the first call, the guard is nevertheless set,
the provider stays uninstalled, and every later call — whatever its install
outcome would be — changes nothing, so the installation is never retried and
callers cannot observe the failure. -/
theorem claim_C10 (results : List Bool) :
    List.foldl (fun st r => install_crypto r st)
        (install_crypto false initialCryptoState) results
      = CryptoState.mk true false 1 := by
  induction results with
  | nil => rfl
  | cons r rs ih => exact ih

end TlsFriend
